import Mathlib

/-!
Verification development for the MoritzServer MAX!/Moritz protocol stack
(moritzprotocol.messages, moritzprotocol.communication).

The Python 2 source is shallowly embedded: strings become lists of
characters, Python integers become Nat or Int (signed struct fields and
the duty-cycle budget are Int), floats carrying half-degree temperatures
become Rat, exceptions become an Except monad over an explicit error
type.  Hex formatting mirrors the `"%X" % v` / `str.zfill` pair of the
source, hex parsing mirrors `int(s, 16)` restricted to plain hex digits
(the only shapes that occur on the wire), and `bytearray.fromhex`
becomes `hexBytes` on hex-digit pairs.
-/

/-- Error taxonomy: `MorErr` are the `MoritzError` subclasses defined in
moritzprotocol.exceptions; everything else a handler can raise is a
plain Python exception, collected in `PyErr`. -/
inductive MorErr
  | unknownMessage (id : Nat)
  | lengthNotMatching
  | missingPayloadParameter
deriving DecidableEq, Repr

/-- Python-level failures: ValueError (int()/fromhex on malformed text),
struct.error (byte-count mismatch in struct.unpack), KeyError (missing
dict key), AttributeError (missing attribute), or a MoritzError. -/
inductive PyErr
  | valueError
  | structError
  | keyError
  | attributeError
  | moritz (e : MorErr)
deriving DecidableEq, Repr

deriving instance DecidableEq for Except

/-- Python slice s[a:b] for 0 ≤ a ≤ b. -/
def pySlice (s : List Char) (a b : Nat) : List Char :=
  (s.drop a).take (b - a)

/-- Does the line start with the two characters "Zs"? -/
def startsZs : List Char → Bool
  | 'Z' :: 's' :: _ => true
  | _ => false

/-- Uppercase hex digit, as produced by Python's "%X" format. -/
def hexDigitChar (n : Nat) : Char :=
  if n < 10 then Char.ofNat (48 + n) else Char.ofNat (55 + n)

/-- Value of a hex digit character (int(c, 16) accepts both cases). -/
def hexDigitVal (c : Char) : Option Nat :=
  if 48 ≤ c.toNat ∧ c.toNat ≤ 57 then some (c.toNat - 48)
  else if 65 ≤ c.toNat ∧ c.toNat ≤ 70 then some (c.toNat - 55)
  else if 97 ≤ c.toNat ∧ c.toNat ≤ 102 then some (c.toNat - 87)
  else none

/-- Fuel-driven core of "%X" formatting (most significant digit first). -/
def natToHexAux : Nat → Nat → List Char
  | 0, _ => []
  | fuel + 1, n =>
    if n < 16 then [hexDigitChar n]
    else natToHexAux fuel (n / 16) ++ [hexDigitChar (n % 16)]

/-- Python "%X" % n : uppercase hex digits of n, "0" for 0. -/
def natToHex (n : Nat) : List Char := natToHexAux (n + 1) n

/-- Fuel-driven core of decimal str() formatting. -/
def natToDecAux : Nat → Nat → List Char
  | 0, _ => []
  | fuel + 1, n =>
    if n < 10 then [hexDigitChar n]
    else natToDecAux fuel (n / 10) ++ [hexDigitChar (n % 10)]

/-- Python str(n) for a nonnegative integer n. -/
def natToDec (n : Nat) : List Char := natToDecAux (n + 1) n

/-- Python str.zfill: left-pad with '0' to width w. -/
def zfill (w : Nat) (s : List Char) : List Char :=
  List.replicate (w - s.length) '0' ++ s

/-- Accumulating hex parser: consumes digits left to right. -/
def parseHexAux : List Char → Nat → Option Nat
  | [], acc => some acc
  | c :: cs, acc =>
    match hexDigitVal c with
    | some d => parseHexAux cs (acc * 16 + d)
    | none => none

/-- Python int(s, 16) restricted to plain hex-digit strings: empty or
non-hex input raises ValueError (modelled as none). -/
def pyIntHex (s : List Char) : Option Nat :=
  match s with
  | [] => none
  | _ => parseHexAux s 0

/-- Accumulating decimal parser. -/
def parseDecAux : List Char → Nat → Option Nat
  | [], acc => some acc
  | c :: cs, acc =>
    if 48 ≤ c.toNat ∧ c.toNat ≤ 57 then parseDecAux cs (acc * 10 + (c.toNat - 48))
    else none

/-- Python int(s) on a stripped string: optional sign then decimal
digits; anything else raises ValueError (none). -/
def pyIntDec (s : List Char) : Option Int :=
  match s with
  | [] => none
  | '-' :: rest =>
    match rest with
    | [] => none
    | _ => (parseDecAux rest 0).map (fun n => -(n : Int))
  | '+' :: rest =>
    match rest with
    | [] => none
    | _ => (parseDecAux rest 0).map (fun n => (n : Int))
  | _ => (parseDecAux s 0).map (fun n => (n : Int))

/-- Characters removed by Python str.strip(). -/
def isSpaceChar (c : Char) : Bool :=
  c = ' ' || c = '\t' || c = '\n' || c = '\r' || c = '\x0b' || c = '\x0c'

/-- Python str.strip(). -/
def stripL (s : List Char) : List Char :=
  ((s.dropWhile isSpaceChar).reverse.dropWhile isSpaceChar).reverse

/-- bytearray.fromhex on a plain hex string: pairs of hex digits become
bytes; an odd count or a non-hex character raises ValueError. -/
def hexBytes : List Char → Except PyErr (List Nat)
  | [] => .ok []
  | [_] => .error .valueError
  | c1 :: c2 :: rest =>
    match hexDigitVal c1, hexDigitVal c2 with
    | some d1, some d2 =>
      match hexBytes rest with
      | .ok bs => .ok ((16 * d1 + d2) :: bs)
      | .error e => .error e
    | _, _ => .error .valueError

/-- Python 2 round(): half away from zero, as an integer result. -/
def pyRound (q : ℚ) : ℤ :=
  if q < 0 then -Int.floor (-q + 1 / 2) else Int.floor (q + 1 / 2)

/-- The signed byte produced by struct.unpack(">b", ...) on byte b. -/
def toSigned (b : Nat) : Int :=
  if b < 128 then (b : Int) else (b : Int) - 256

/-- Bit k of a Python integer (two's complement for negatives): the
truth value of s & (1 << k), via floor division and mod. -/
def pyBitI (s : Int) (k : Nat) : Bool :=
  decide (Int.emod (Int.ediv s (2 ^ k)) 2 = 1)

/-- MODE_IDS keys, messages.py: 0 auto, 1 manual, 2 temporary, 3 boost. -/
inductive Mode
  | auto | manual | temporary | boost
deriving DecidableEq, Repr

/-- Wire code of a mode (inverse MODE_IDS lookup in encode_payload). -/
def modeCode : Mode → Nat
  | .auto => 0
  | .manual => 1
  | .temporary => 2
  | .boost => 3

/-- MODE_IDS lookup: mode name for a 2-bit wire value. -/
def modeOfNat : Nat → Option Mode
  | 0 => some .auto
  | 1 => some .manual
  | 2 => some .temporary
  | 3 => some .boost
  | _ => none

/-- DEVICE_TYPES_BY_NAME lookup (messages.py). -/
def deviceTypeByName (s : String) : Option Nat :=
  if s = "Cube" then some 0
  else if s = "HeatingThermostat" then some 1
  else if s = "HeatingThermostatPlus" then some 2
  else if s = "WallMountedThermostat" then some 3
  else if s = "ShutterContact" then some 4
  else if s = "PushButton" then some 5
  else none

/-- The message classes of MORITZ_MESSAGE_IDS, one constructor per
registered class. -/
inductive MsgType
  | PairPing | PairPong | Ack | TimeInformation
  | ConfigWeekProfile | ConfigTemperatures | ConfigValve
  | AddLinkPartner | RemoveLinkPartner | SetGroupId | RemoveGroupId
  | ShutterContactState
  | SetTemperature | WallThermostatControl | SetComfortTemperature | SetEcoTemperature
  | PushButtonState | ThermostatState | WallThermostatState
  | SetDisplayActualTemperature | WakeUp | Reset
deriving DecidableEq, Repr

/-- Inverse MORITZ_MESSAGE_IDS lookup used by encode_message. -/
def msgId : MsgType → Nat
  | .PairPing => 0x00
  | .PairPong => 0x01
  | .Ack => 0x02
  | .TimeInformation => 0x03
  | .ConfigWeekProfile => 0x10
  | .ConfigTemperatures => 0x11
  | .ConfigValve => 0x12
  | .AddLinkPartner => 0x20
  | .RemoveLinkPartner => 0x21
  | .SetGroupId => 0x22
  | .RemoveGroupId => 0x23
  | .ShutterContactState => 0x30
  | .SetTemperature => 0x40
  | .WallThermostatControl => 0x42
  | .SetComfortTemperature => 0x43
  | .SetEcoTemperature => 0x44
  | .PushButtonState => 0x50
  | .ThermostatState => 0x60
  | .WallThermostatState => 0x70
  | .SetDisplayActualTemperature => 0x82
  | .WakeUp => 0xF1
  | .Reset => 0xF0

/-- MORITZ_MESSAGE_IDS lookup used by decode_message. -/
def msgTypeOfId : Nat → Option MsgType
  | 0x00 => some .PairPing
  | 0x01 => some .PairPong
  | 0x02 => some .Ack
  | 0x03 => some .TimeInformation
  | 0x10 => some .ConfigWeekProfile
  | 0x11 => some .ConfigTemperatures
  | 0x12 => some .ConfigValve
  | 0x20 => some .AddLinkPartner
  | 0x21 => some .RemoveLinkPartner
  | 0x22 => some .SetGroupId
  | 0x23 => some .RemoveGroupId
  | 0x30 => some .ShutterContactState
  | 0x40 => some .SetTemperature
  | 0x42 => some .WallThermostatControl
  | 0x43 => some .SetComfortTemperature
  | 0x44 => some .SetEcoTemperature
  | 0x50 => some .PushButtonState
  | 0x60 => some .ThermostatState
  | 0x70 => some .WallThermostatState
  | 0x82 => some .SetDisplayActualTemperature
  | 0xF1 => some .WakeUp
  | 0xF0 => some .Reset
  | _ => none

/-- A MoritzMessage object: the concrete class plus the instance fields
set in MoritzMessage.__init__ / decode_message. -/
structure MoritzMsg where
  msgtype : MsgType
  counter : Nat
  flag : Nat
  sender_id : Nat
  receiver_id : Nat
  group_id : Nat
  payload : List Char
deriving DecidableEq, Repr

/-- MoritzMessage.decode_message: strip the leading Z of an outgoing
frame, parse the fixed-width hex header, validate the length field,
look up the message class.  int() failures are ValueError; the length
and tag failures are the MoritzError subclasses raised by the source. -/
def decode_message (input0 : List Char) : Except PyErr MoritzMsg :=
  let input := if startsZs input0 then input0.drop 1 else input0
  match pyIntHex (pySlice input 1 3) with
  | none => .error .valueError
  | some length =>
  match pyIntHex (pySlice input 3 5) with
  | none => .error .valueError
  | some counter =>
  match pyIntHex (pySlice input 5 7) with
  | none => .error .valueError
  | some flag =>
  match pyIntHex (pySlice input 7 9) with
  | none => .error .valueError
  | some msgtype =>
  match pyIntHex (pySlice input 9 15) with
  | none => .error .valueError
  | some sender_id =>
  match pyIntHex (pySlice input 15 21) with
  | none => .error .valueError
  | some receiver_id =>
  match pyIntHex (pySlice input 21 23) with
  | none => .error .valueError
  | some group_id =>
  if ((input.length : Int) - 3) ≠ (length : Int) * 2 then
    .error (.moritz .lengthNotMatching)
  else
    match msgTypeOfId msgtype with
    | none => .error (.moritz (.unknownMessage msgtype))
    | some t =>
      .ok { msgtype := t, counter := counter, flag := flag,
            sender_id := sender_id, receiver_id := receiver_id,
            group_id := group_id, payload := input.drop 23 }

/-- The header-and-frame assembly of MoritzMessage.encode_message, after
any encode_payload/encode_flag rule has already updated the fields: the
six zero-padded uppercase hex header fields, the payload, and the
"Zs" + length prefix (length = body characters / 2, floor). -/
def encodeMessageCore (m : MoritzMsg) : List Char :=
  let body :=
    zfill 2 (natToHex m.counter) ++
      (zfill 2 (natToHex m.flag) ++
        (zfill 2 (natToHex (msgId m.msgtype)) ++
          (zfill 6 (natToHex m.sender_id) ++
            (zfill 6 (natToHex m.receiver_id) ++
              (zfill 2 (natToHex m.group_id) ++ m.payload)))))
  'Z' :: 's' :: (zfill 2 (natToHex (body.length / 2)) ++ body)

/-- The payload dict passed to SetTemperatureMessage.encode_payload:
optional desired_temperature and mode entries. -/
structure STPayloadIn where
  desired_temperature : Option ℚ
  mode : Option Mode
deriving DecidableEq, Repr

/-- SetTemperatureMessage.encode_payload: require both keys, clamp hard
to 30.5 above and 4.5 below, otherwise round to the nearest half degree
(Python 2 round: half away from zero), pack (mode << 6) | int(temp*2)
as two uppercase hex characters. -/
def stEncodePayload (p : STPayloadIn) : Except PyErr (List Char) :=
  match p.desired_temperature, p.mode with
  | none, _ => .error (.moritz .missingPayloadParameter)
  | some _, none => .error (.moritz .missingPayloadParameter)
  | some t, some md =>
    let k : ℤ :=
      if t > 61 / 2 then 61
      else if t < 9 / 2 then 9
      else pyRound (t * 2)
    .ok (zfill 2 (natToHex (modeCode md <<< 6 ||| k.toNat)))

/-- SetTemperatureMessage.encode_flag: 0x4 when a group id is set. -/
def stEncodeFlag (m : MoritzMsg) : Nat :=
  if m.group_id ≠ 0 then 0x4 else 0x0

/-- The dict returned by SetTemperatureMessage.decoded_payload. -/
structure STDecoded where
  desired_temperature : ℚ
  mode : Mode
deriving DecidableEq, Repr

/-- SetTemperatureMessage.decoded_payload: unpack one byte from
payload[0:4]; low six bits are twice the temperature, the top two bits
the mode. struct.unpack(">B") demands exactly one byte. -/
def stDecodedPayload (payload : List Char) : Except PyErr STDecoded :=
  match hexBytes (pySlice payload 0 4) with
  | .error e => .error e
  | .ok bs =>
    match bs with
    | [b] =>
      match modeOfNat (b >>> 6) with
      | none => .error .keyError
      | some md => .ok { desired_temperature := ((b &&& 0x3F : Nat) : ℚ) / 2, mode := md }
    | _ => .error .structError

/-- SetTemperatureMessage.encode_message: encode_payload replaces the
payload field, encode_flag then recomputes the flag, and the frame is
assembled from the updated object, which the call also returns. -/
def stEncodeMessage (m : MoritzMsg) (p : STPayloadIn) :
    Except PyErr (List Char × MoritzMsg) :=
  match stEncodePayload p with
  | .error e => .error e
  | .ok pl =>
    let m1 : MoritzMsg := { m with payload := pl }
    let m2 : MoritzMsg := { m1 with flag := stEncodeFlag m1 }
    .ok (encodeMessageCore m2, m2)

/-- The argument TimeInformationMessage.encode_payload receives: None,
the {} default of encode_message, or a datetime value. -/
inductive TIPayloadIn
  | nonePayload
  | emptyDict
  | dt (year month day hour minute second : Nat)
deriving DecidableEq, Repr

/-- TimeInformationMessage.encode_payload: None encodes the empty
request payload; any non-None argument is treated as a datetime, so the
{} default has no .year attribute and raises AttributeError; a datetime
packs five bytes with the month split across bytes 3 and 4. -/
def tiEncodePayload : TIPayloadIn → Except PyErr (List Char)
  | .nonePayload => .ok []
  | .emptyDict => .error .attributeError
  | .dt y mo d h mi s =>
    .ok (zfill 2 (natToHex (y - 2000)) ++
         zfill 2 (natToHex d) ++
         zfill 2 (natToHex h) ++
         zfill 2 (natToHex (mi ||| ((mo &&& 0x0C) <<< 4))) ++
         zfill 2 (natToHex (s ||| ((mo &&& 0x03) <<< 6))))

/-- TimeInformationMessage.encode_flag, evaluated after encode_payload
has set the payload: 0x0A for the empty request, 0x04 otherwise. -/
def tiEncodeFlag (payload : List Char) : Nat :=
  if payload = [] then 0x0A else 0x04

/-- TimeInformationMessage.encode_message (payload rule then flag rule,
then frame assembly from the updated object). -/
def tiEncodeMessage (m : MoritzMsg) (p : TIPayloadIn) :
    Except PyErr (List Char × MoritzMsg) :=
  match tiEncodePayload p with
  | .error e => .error e
  | .ok pl =>
    let m1 : MoritzMsg := { m with payload := pl }
    let m2 : MoritzMsg := { m1 with flag := tiEncodeFlag m1.payload }
    .ok (encodeMessageCore m2, m2)

/-- PairPongMessage.encode_payload: the devicetype entry of the payload
dict (KeyError if absent or unknown), rendered as str(code).zfill(2). -/
def ppEncodePayload (p : Option String) : Except PyErr (List Char) :=
  match p with
  | none => .error .keyError
  | some name =>
    match deviceTypeByName name with
    | none => .error .keyError
    | some n => .ok (zfill 2 (natToDec n))

/-- PairPongMessage.encode_message: encode_payload replaces the payload
field; PairPong has no encode_flag rule, so the flag is untouched. -/
def ppEncodeMessage (m : MoritzMsg) (p : Option String) :
    Except PyErr (List Char × MoritzMsg) :=
  match ppEncodePayload p with
  | .error e => .error e
  | .ok pl =>
    let m1 : MoritzMsg := { m with payload := pl }
    .ok (encodeMessageCore m1, m1)

/-- The dict built by ThermostatStateMessage.decode_status.  The
desired temperature is (byte2 & 0x7F)/2.0; it is kept here as twice its
value (half-degree units) to stay in Nat. -/
structure TSStatus where
  mode : Mode
  dstsetting : Bool
  langateway : Bool
  is_locked : Bool
  rferror : Bool
  battery_low : Bool
  desiredHalfDegrees : Nat
  valve_position : Nat
deriving DecidableEq, Repr

/-- The byte-level core of ThermostatStateMessage.decode_status on the
three unpacked bytes.  struct ">bBB" makes byte 0 signed: mode and the
dst/lan bits come from its low nibble, then the source shifts the
signed value right by NINE (an arithmetic shift, so -1 for bytes
0x80..0xFF) before extracting is_locked, rferror and battery_low. -/
def decodeStatusBytes (b0 b1 b2 : Nat) : Except PyErr TSStatus :=
  match modeOfNat (Int.toNat (Int.emod (toSigned b0) 4)) with
  | none => .error .keyError
  | some md =>
    .ok { mode := md
          dstsetting := pyBitI (toSigned b0) 2
          langateway := pyBitI (toSigned b0) 3
          is_locked := pyBitI (Int.ediv (toSigned b0) 512) 0
          rferror := pyBitI (Int.ediv (toSigned b0) 512) 1
          battery_low := pyBitI (Int.ediv (toSigned b0) 512) 2
          desiredHalfDegrees := b2 &&& 0x7F
          valve_position := b1 }

/-- ThermostatStateMessage.decode_status: fromhex(payload[0:6]) then
struct.unpack(">bBB") — struct.error unless exactly three bytes. -/
def decode_status (payload : List Char) : Except PyErr TSStatus :=
  match hexBytes (pySlice payload 0 6) with
  | .error e => .error e
  | .ok bs =>
    match bs with
    | [b0, b1, b2] => decodeStatusBytes b0 b1 b2
    | _ => .error .structError

/-- The dict returned by ThermostatStateMessage.decoded_payload: the
decode_status fields plus, for a two-byte pending part outside
temporary mode, the measured temperature (kept in tenths of a degree). -/
structure TSResult where
  status : TSStatus
  measuredTenths : Option Nat
deriving DecidableEq, Repr

/-- ThermostatStateMessage.decoded_payload: decode_status on the
payload, then fromhex on the tail beyond six characters; a three-byte
tail is skipped, a two-byte tail adds measured_temperature when the
mode is not temporary, anything else is ignored. -/
def tsDecodedPayload (payload : List Char) : Except PyErr TSResult :=
  match decode_status payload with
  | .error e => .error e
  | .ok st =>
    if 6 < payload.length then
      match hexBytes (payload.drop 6) with
      | .error e => .error e
      | .ok pending =>
        match pending with
        | [p0, p1] =>
          if st.mode ≠ Mode.temporary then
            .ok { status := st, measuredTenths := some (((p0 &&& 0x1) <<< 8) + p1) }
          else .ok { status := st, measuredTenths := none }
        | _ => .ok { status := st, measuredTenths := none }
    else .ok { status := st, measuredTenths := none }

/-- The dict returned by AckMessage.decoded_payload: an optional state
entry plus, for an eight-character payload, the merged thermostat
status fields (decode_status never yields a state entry, so the merge
cannot overwrite it). -/
structure AckDecoded where
  state : Option String
  thermo : Option TSStatus
deriving DecidableEq, Repr

/-- AckMessage.decoded_payload: the state entry exists only for payloads
starting with 01 or 81; payloads of exactly eight characters get the
trailing three bytes decoded as a thermostat status merged in. -/
def ackDecodedPayload (payload : List Char) : Except PyErr AckDecoded :=
  let st : Option String :=
    if pySlice payload 0 2 = ['0', '1'] then some "ok"
    else if pySlice payload 0 2 = ['8', '1'] then some "invalid_command"
    else none
  if payload.length = 8 then
    match decode_status (payload.drop 2) with
    | .error e => .error e
    | .ok t => .ok { state := st, thermo := some t }
  else .ok { state := st, thermo := none }

/-- The hardcoded Cube identity of communication.py. -/
def CUBE_ID : Nat := 0x123456

/-- The pairing-role flags held by CULMessageThread. -/
structure PairFlags where
  pair_as_cube : Bool
  pair_as_wallthermostat : Bool
  pair_as_ShutterContact : Bool
deriving DecidableEq, Repr

/-- CULComThread.has_send_budget: at least 2000 ms cached budget. -/
def has_send_budget (budget : Int) : Bool :=
  decide (2000 ≤ budget)

/-- The externally visible effects of one respond_to_message call:
published signals, command-queue puts, and registry writes. -/
inductive EngineAction
  | pairRequest
  | enqueuePong (resp : MoritzMsg) (devicetype : String)
  | pairAccepted (resp : MoritzMsg)
  | enqueueTime (resp : MoritzMsg)
  | registryUpdate (sender : Nat)
  | tsEvent
  | warnUnhandled
deriving DecidableEq, Repr

/-- The PairPong response object built in respond_to_message. -/
def mkPairPong (msg : MoritzMsg) : MoritzMsg :=
  { msgtype := .PairPong, counter := 1, flag := 0, sender_id := CUBE_ID,
    receiver_id := msg.sender_id, group_id := msg.group_id, payload := [] }

/-- The TimeInformation response object built in respond_to_message. -/
def mkTimeResp (msg : MoritzMsg) : MoritzMsg :=
  { msgtype := .TimeInformation, counter := 1, flag := 0, sender_id := CUBE_ID,
    receiver_id := msg.sender_id, group_id := msg.group_id, payload := [] }

/-- CULMessageThread.respond_to_message as an action trace.  Only
MoritzError subclasses are MorErr; the KeyError on a stateless Ack and
any decoded_payload failure propagate as plain Python exceptions. -/
def respond_to_message (msg : MoritzMsg) (flags : PairFlags) (budget : Int) :
    Except PyErr (List EngineAction) :=
  match msg.msgtype with
  | .PairPing =>
    if msg.receiver_id = 0 then
      if ¬(flags.pair_as_cube || flags.pair_as_wallthermostat || flags.pair_as_ShutterContact) then
        .ok [.pairRequest]
      else if has_send_budget budget then
        .ok [.pairRequest, .enqueuePong (mkPairPong msg) "Cube", .pairAccepted (mkPairPong msg)]
      else
        .ok [.pairRequest]
    else if msg.receiver_id = CUBE_ID then
      if has_send_budget budget then
        .ok [.pairRequest, .enqueuePong (mkPairPong msg) "Cube", .pairAccepted (mkPairPong msg)]
      else
        .ok [.pairRequest]
    else
      .ok [.pairRequest]
  | .TimeInformation =>
    if msg.payload = [] ∧ msg.receiver_id = CUBE_ID then
      .ok [.enqueueTime (mkTimeResp msg)]
    else
      .ok [.warnUnhandled]
  | .ThermostatState =>
    match tsDecodedPayload msg.payload with
    | .error e => .error e
    | .ok _ => .ok [.registryUpdate msg.sender_id, .tsEvent]
  | .Ack =>
    if msg.receiver_id = CUBE_ID then
      match ackDecodedPayload msg.payload with
      | .error e => .error e
      | .ok d =>
        match d.state with
        | none => .error .keyError
        | some s =>
          if s = "ok" then .ok [.tsEvent, .registryUpdate msg.sender_id]
          else .ok [.warnUnhandled]
    else
      .ok [.warnUnhandled]
  | _ => .ok [.warnUnhandled]

/-- The body of one CULMessageThread.run iteration on a received line:
strip the two signal-strength characters, decode, parse the strength,
dispatch. -/
def engineInner (line : List Char) (flags : PairFlags) (budget : Int) :
    Except PyErr (List EngineAction) :=
  match decode_message (line.take (line.length - 2)) with
  | .error e => .error e
  | .ok msg =>
    match pyIntHex (line.drop (line.length - 2)) with
    | none => .error .valueError
    | some _ => respond_to_message msg flags budget

/-- Outcome of one engine-loop iteration: handled normally, dropped
with a logged MoritzError (the only class the except arm catches), or
an uncaught exception that kills the thread. -/
inductive StepResult
  | handled (actions : List EngineAction)
  | droppedMoritz (e : MorErr)
  | crashed (e : PyErr)
deriving DecidableEq, Repr

/-- One engine-loop iteration including the try/except MoritzError of
CULMessageThread.run. -/
def engineStep (line : List Char) (flags : PairFlags) (budget : Int) : StepResult :=
  match engineInner line flags budget with
  | .ok a => .handled a
  | .error (.moritz e) => .droppedMoritz e
  | .error e => .crashed e

/-- The transmit-relevant state of CULComThread: the cached duty-cycle
budget (ms), the staged outgoing message, and the log of lines written
to the serial port. -/
structure ComState where
  pending_budget : Int
  pending_message : Option (List Char)
  written : List (List Char)
deriving DecidableEq, Repr

/-- The line terminator appended by CULComThread.send_command. -/
def crlf : List Char := ['\r', '\n']

/-- CULComThread.send_command: writes command + CRLF and invalidates
the cached budget when the command starts with Zs. -/
def send_command (st : ComState) (cmd : List Char) : ComState :=
  { st with
    pending_budget := if startsZs cmd then 0 else st.pending_budget,
    written := st.written ++ [cmd ++ crlf] }

/-- The outbound fragment of CULComThread.run: an (truthy, so nonempty)
staged message is sent when the cached budget strictly exceeds ten
times its character count, else the budget is zeroed to force a
refresh and the message stays staged. -/
def outboundStep (st : ComState) : ComState :=
  match st.pending_message with
  | none => st
  | some m =>
    if m = [] then st
    else if (m.length : Int) * 10 < st.pending_budget then
      { send_command st m with pending_message := none }
    else
      { st with pending_budget := 0 }

/-- The value assigned to the cached budget from a budget-report line:
int(line[3:].strip()) * 10 or 1. -/
def budgetLineValue (line : List Char) : Option Int :=
  (pyIntDec (stripL (line.drop 3))).map (fun n => if n * 10 = 0 then 1 else n * 10)

/-- Does the line start with the four characters of a budget report? -/
def startsBudgetReport : List Char → Bool
  | '2' :: '1' :: ' ' :: ' ' :: _ => true
  | _ => false

/-- Every mutation of CULComThread._pending_budget in run(): a
send_command call, a processed non-frame line (a budget report sets the
budget, others leave it), or the quota-shortfall zeroing. -/
inductive ComEvent
  | doSend (cmd : List Char)
  | lineIn (line : List Char)
  | quotaShortfall
deriving DecidableEq, Repr

/-- Effect of one ComEvent on the cached budget; none is the uncaught
ValueError of int() on a malformed budget report. -/
def comBudgetStep (b : Int) : ComEvent → Option Int
  | .doSend cmd => some (if startsZs cmd then 0 else b)
  | .lineIn line => if startsBudgetReport line then budgetLineValue line else some b
  | .quotaShortfall => some 0

/-- The cached budget after a sequence of ComEvents. -/
def comBudgetRun (b : Int) (tr : List ComEvent) : Option Int :=
  tr.foldlM comBudgetStep b

/-- Is the event a processed budget-report line? -/
def isBudgetReportEvent : ComEvent → Bool
  | .lineIn line => startsBudgetReport line
  | _ => false

theorem hexDigitVal_hexDigitChar : ∀ n, n < 16 → hexDigitVal (hexDigitChar n) = some n := by
  decide

theorem natToHexAux_congr : ∀ f1 f2 n, n < f1 → n < f2 → natToHexAux f1 n = natToHexAux f2 n := by
  intro f1
  induction f1 with
  | zero => intro f2 n h1 _; omega
  | succ f ih =>
    intro f2 n h1 h2
    cases f2 with
    | zero => omega
    | succ g =>
      simp only [natToHexAux]
      by_cases h16 : n < 16
      · simp [h16]
      · simp only [if_neg h16]
        have hpos : 0 < n := by omega
        have hdlt : n / 16 < n := Nat.div_lt_self hpos (by omega)
        rw [ih g (n / 16) (by omega) (by omega)]

theorem natToHex_eq (n : Nat) :
    natToHex n =
      if n < 16 then [hexDigitChar n]
      else natToHex (n / 16) ++ [hexDigitChar (n % 16)] := by
  by_cases h16 : n < 16
  · simp [natToHex, natToHexAux, h16]
  · have hpos : 0 < n := by omega
    have hdlt : n / 16 < n := Nat.div_lt_self hpos (by omega)
    simp only [natToHex, natToHexAux, if_neg h16]
    rw [natToHexAux_congr n (n / 16 + 1) (n / 16) (by omega) (by omega)]
    simp only [natToHexAux]

theorem natToHex_ne_nil (n : Nat) : natToHex n ≠ [] := by
  rw [natToHex_eq]
  split <;> simp

theorem natToHex_length_le : ∀ w n, 1 ≤ w → n < 16 ^ w → (natToHex n).length ≤ w := by
  intro w
  induction w with
  | zero => intro n h1 _; omega
  | succ w ih =>
    intro n _ hn
    rw [natToHex_eq]
    by_cases h16 : n < 16
    · simp [h16]
    · simp only [if_neg h16, List.length_append, List.length_cons, List.length_nil]
      have hw : 1 ≤ w := by
        by_contra hw0
        have hw1 : w = 0 := by omega
        subst hw1
        simp [pow_one] at hn
        omega
      have hdiv : n / 16 < 16 ^ w := by
        rw [Nat.div_lt_iff_lt_mul (by omega : 0 < 16)]
        calc n < 16 ^ (w + 1) := hn
          _ = 16 ^ w * 16 := by rw [pow_succ]
      have := ih (n / 16) hw hdiv
      omega

theorem parseHexAux_append (a b : List Char) (acc : Nat) :
    parseHexAux (a ++ b) acc = (parseHexAux a acc).bind (fun v => parseHexAux b v) := by
  induction a generalizing acc with
  | nil => simp [parseHexAux]
  | cons c cs ih =>
    simp only [List.cons_append, parseHexAux]
    cases h : hexDigitVal c with
    | none => simp
    | some d => simp [ih]

theorem parseHexAux_natToHex : ∀ n acc,
    parseHexAux (natToHex n) acc = some (acc * 16 ^ (natToHex n).length + n) := by
  intro n
  induction n using Nat.strong_induction_on with
  | _ n ih =>
    intro acc
    rw [natToHex_eq]
    by_cases h16 : n < 16
    · simp only [if_pos h16, parseHexAux, hexDigitVal_hexDigitChar n h16]
      simp [pow_one]
    · simp only [if_neg h16]
      have hpos : 0 < n := by omega
      have hdlt : n / 16 < n := Nat.div_lt_self hpos (by omega)
      rw [parseHexAux_append, ih (n / 16) hdlt acc]
      simp only [Option.some_bind]
      simp only [parseHexAux, hexDigitVal_hexDigitChar (n % 16) (Nat.mod_lt n (by omega))]
      have hdm : 16 * (n / 16) + n % 16 = n := Nat.div_add_mod n 16
      congr 1
      simp only [List.length_append, List.length_cons, List.length_nil, zero_add]
      calc (acc * 16 ^ (natToHex (n / 16)).length + n / 16) * 16 + n % 16
          = acc * (16 ^ (natToHex (n / 16)).length * 16) + (16 * (n / 16) + n % 16) := by ring
        _ = acc * 16 ^ ((natToHex (n / 16)).length + 1) + n := by rw [hdm, pow_succ]

theorem parseHexAux_replicate_zero : ∀ k acc,
    parseHexAux (List.replicate k '0') acc = some (acc * 16 ^ k) := by
  intro k
  induction k with
  | zero => intro acc; simp [parseHexAux]
  | succ k ih =>
    intro acc
    rw [List.replicate_succ]
    simp only [parseHexAux, show hexDigitVal '0' = some 0 from rfl]
    rw [ih]
    congr 1
    calc (acc * 16 + 0) * 16 ^ k = acc * (16 ^ k * 16) := by ring
      _ = acc * 16 ^ (k + 1) := by rw [pow_succ]

theorem pyIntHex_of_ne_nil {s : List Char} (h : s ≠ []) : pyIntHex s = parseHexAux s 0 := by
  cases s with
  | nil => exact absurd rfl h
  | cons c cs => rfl

theorem zfill_ne_nil {w : Nat} {s : List Char} (h : s ≠ []) : zfill w s ≠ [] := by
  simp [zfill, h]

theorem pyIntHex_zfill_natToHex (w n : Nat) :
    pyIntHex (zfill w (natToHex n)) = some n := by
  rw [pyIntHex_of_ne_nil (zfill_ne_nil (natToHex_ne_nil n))]
  unfold zfill
  rw [parseHexAux_append, parseHexAux_replicate_zero]
  simp only [Option.some_bind, Nat.zero_mul]
  rw [parseHexAux_natToHex]
  simp

theorem zfill_length_of_le {w : Nat} {s : List Char} (h : s.length ≤ w) :
    (zfill w s).length = w := by
  simp [zfill]
  omega

theorem zfill_natToHex_length {w n : Nat} (hw : 1 ≤ w) (hn : n < 16 ^ w) :
    (zfill w (natToHex n)).length = w :=
  zfill_length_of_le (natToHex_length_le w n hw hn)

theorem msgTypeOfId_msgId : ∀ t, msgTypeOfId (msgId t) = some t := by
  intro t
  cases t <;> rfl

theorem msgId_lt : ∀ t, msgId t < 256 := by
  intro t
  cases t <;> decide

theorem decode_message_shape
    (H f1 f2 f3 f4 f5 f6 p : List Char)
    (hH : H.length = 2) (h1 : f1.length = 2) (h2 : f2.length = 2) (h3 : f3.length = 2)
    (h4 : f4.length = 6) (h5 : f5.length = 6) (h6 : f6.length = 2)
    (L counter flag msgtype sender receiver group : Nat)
    (pH : pyIntHex H = some L) (p1 : pyIntHex f1 = some counter)
    (p2 : pyIntHex f2 = some flag) (p3 : pyIntHex f3 = some msgtype)
    (p4 : pyIntHex f4 = some sender) (p5 : pyIntHex f5 = some receiver)
    (p6 : pyIntHex f6 = some group)
    (hlen : 20 + p.length = L * 2)
    (t : MsgType) (ht : msgTypeOfId msgtype = some t) :
    decode_message ('Z' :: 's' :: (H ++ (f1 ++ (f2 ++ (f3 ++ (f4 ++ (f5 ++ (f6 ++ p)))))))) =
      .ok { msgtype := t, counter := counter, flag := flag, sender_id := sender,
            receiver_id := receiver, group_id := group, payload := p } := by
  have d1 : ('s' :: (H ++ (f1 ++ (f2 ++ (f3 ++ (f4 ++ (f5 ++ (f6 ++ p)))))))).drop 1 =
      H ++ (f1 ++ (f2 ++ (f3 ++ (f4 ++ (f5 ++ (f6 ++ p)))))) := rfl
  have d3 : ('s' :: (H ++ (f1 ++ (f2 ++ (f3 ++ (f4 ++ (f5 ++ (f6 ++ p)))))))).drop 3 =
      f1 ++ (f2 ++ (f3 ++ (f4 ++ (f5 ++ (f6 ++ p))))) := by
    show (H ++ (f1 ++ (f2 ++ (f3 ++ (f4 ++ (f5 ++ (f6 ++ p))))))).drop 2 = _
    exact List.drop_left' hH
  have d5 : ('s' :: (H ++ (f1 ++ (f2 ++ (f3 ++ (f4 ++ (f5 ++ (f6 ++ p)))))))).drop 5 =
      f2 ++ (f3 ++ (f4 ++ (f5 ++ (f6 ++ p)))) := by
    rw [show (5 : Nat) = 3 + 2 from rfl, ← List.drop_drop, d3]
    exact List.drop_left' h1
  have d7 : ('s' :: (H ++ (f1 ++ (f2 ++ (f3 ++ (f4 ++ (f5 ++ (f6 ++ p)))))))).drop 7 =
      f3 ++ (f4 ++ (f5 ++ (f6 ++ p))) := by
    rw [show (7 : Nat) = 5 + 2 from rfl, ← List.drop_drop, d5]
    exact List.drop_left' h2
  have d9 : ('s' :: (H ++ (f1 ++ (f2 ++ (f3 ++ (f4 ++ (f5 ++ (f6 ++ p)))))))).drop 9 =
      f4 ++ (f5 ++ (f6 ++ p)) := by
    rw [show (9 : Nat) = 7 + 2 from rfl, ← List.drop_drop, d7]
    exact List.drop_left' h3
  have d15 : ('s' :: (H ++ (f1 ++ (f2 ++ (f3 ++ (f4 ++ (f5 ++ (f6 ++ p)))))))).drop 15 =
      f5 ++ (f6 ++ p) := by
    rw [show (15 : Nat) = 9 + 6 from rfl, ← List.drop_drop, d9]
    exact List.drop_left' h4
  have d21 : ('s' :: (H ++ (f1 ++ (f2 ++ (f3 ++ (f4 ++ (f5 ++ (f6 ++ p)))))))).drop 21 =
      f6 ++ p := by
    rw [show (21 : Nat) = 15 + 6 from rfl, ← List.drop_drop, d15]
    exact List.drop_left' h5
  have d23 : ('s' :: (H ++ (f1 ++ (f2 ++ (f3 ++ (f4 ++ (f5 ++ (f6 ++ p)))))))).drop 23 = p := by
    rw [show (23 : Nat) = 21 + 2 from rfl, ← List.drop_drop, d21]
    exact List.drop_left' h6
  have e13 : pySlice ('s' :: (H ++ (f1 ++ (f2 ++ (f3 ++ (f4 ++ (f5 ++ (f6 ++ p)))))))) 1 3 = H := by
    simp only [pySlice, d1]
    exact List.take_left' hH
  have e35 : pySlice ('s' :: (H ++ (f1 ++ (f2 ++ (f3 ++ (f4 ++ (f5 ++ (f6 ++ p)))))))) 3 5 = f1 := by
    simp only [pySlice, d3]
    exact List.take_left' h1
  have e57 : pySlice ('s' :: (H ++ (f1 ++ (f2 ++ (f3 ++ (f4 ++ (f5 ++ (f6 ++ p)))))))) 5 7 = f2 := by
    simp only [pySlice, d5]
    exact List.take_left' h2
  have e79 : pySlice ('s' :: (H ++ (f1 ++ (f2 ++ (f3 ++ (f4 ++ (f5 ++ (f6 ++ p)))))))) 7 9 = f3 := by
    simp only [pySlice, d7]
    exact List.take_left' h3
  have e915 : pySlice ('s' :: (H ++ (f1 ++ (f2 ++ (f3 ++ (f4 ++ (f5 ++ (f6 ++ p)))))))) 9 15 = f4 := by
    simp only [pySlice, d9]
    exact List.take_left' h4
  have e1521 : pySlice ('s' :: (H ++ (f1 ++ (f2 ++ (f3 ++ (f4 ++ (f5 ++ (f6 ++ p)))))))) 15 21 = f5 := by
    simp only [pySlice, d15]
    exact List.take_left' h5
  have e2123 : pySlice ('s' :: (H ++ (f1 ++ (f2 ++ (f3 ++ (f4 ++ (f5 ++ (f6 ++ p)))))))) 21 23 = f6 := by
    simp only [pySlice, d21]
    exact List.take_left' h6
  have hlen' : ('s' :: (H ++ (f1 ++ (f2 ++ (f3 ++ (f4 ++ (f5 ++ (f6 ++ p)))))))).length =
      23 + p.length := by
    simp only [List.length_cons, List.length_append, hH, h1, h2, h3, h4, h5, h6]
    omega
  unfold decode_message
  rw [show ((if startsZs ('Z' :: 's' :: (H ++ (f1 ++ (f2 ++ (f3 ++ (f4 ++ (f5 ++ (f6 ++ p))))))))
        then ('Z' :: 's' :: (H ++ (f1 ++ (f2 ++ (f3 ++ (f4 ++ (f5 ++ (f6 ++ p)))))))).drop 1
        else ('Z' :: 's' :: (H ++ (f1 ++ (f2 ++ (f3 ++ (f4 ++ (f5 ++ (f6 ++ p)))))))))) =
      's' :: (H ++ (f1 ++ (f2 ++ (f3 ++ (f4 ++ (f5 ++ (f6 ++ p))))))) from rfl]
  simp only [e13, pH, e35, p1, e57, p2, e79, p3, e915, p4, e1521, p5, e2123, p6, hlen', d23, ht]
  rw [if_neg (by push_cast; omega)]

/-- Claim C1 (amended): for every message whose header fields fit their
hex widths (counter, flag, group_id below 0x100; sender_id, receiver_id
below 0x1000000), whose payload is an even-length hex string, and whose
body fits the two-character length field (payload at most 490
characters, i.e. body at most 255 bytes), decoding the wire string
produced by encode_message yields the same variant with equal counter,
flag, sender_id, receiver_id, group_id and payload, and no
length-mismatch error is raised.  Without the 490-character bound the
length field overflows two hex digits and decoding fails. -/
theorem c1_codec_roundtrip (m : MoritzMsg)
    (hc : m.counter < 256) (hf : m.flag < 256) (hg : m.group_id < 256)
    (hs : m.sender_id < 16777216) (hr : m.receiver_id < 16777216)
    (heven : m.payload.length % 2 = 0)
    (_hhex : ∀ c ∈ m.payload, (hexDigitVal c).isSome)
    (hlen : m.payload.length ≤ 490) :
    decode_message (encodeMessageCore m) = Except.ok m := by
  have h2 : (256 : Nat) = 16 ^ 2 := by norm_num
  have h6 : (16777216 : Nat) = 16 ^ 6 := by norm_num
  have l1 : (zfill 2 (natToHex m.counter)).length = 2 :=
    zfill_natToHex_length (by norm_num) (h2 ▸ hc)
  have l2 : (zfill 2 (natToHex m.flag)).length = 2 :=
    zfill_natToHex_length (by norm_num) (h2 ▸ hf)
  have l3 : (zfill 2 (natToHex (msgId m.msgtype))).length = 2 :=
    zfill_natToHex_length (by norm_num) (h2 ▸ msgId_lt m.msgtype)
  have l4 : (zfill 6 (natToHex m.sender_id)).length = 6 :=
    zfill_natToHex_length (by norm_num) (h6 ▸ hs)
  have l5 : (zfill 6 (natToHex m.receiver_id)).length = 6 :=
    zfill_natToHex_length (by norm_num) (h6 ▸ hr)
  have l6 : (zfill 2 (natToHex m.group_id)).length = 2 :=
    zfill_natToHex_length (by norm_num) (h2 ▸ hg)
  have hbodylen :
      (zfill 2 (natToHex m.counter) ++
        (zfill 2 (natToHex m.flag) ++
          (zfill 2 (natToHex (msgId m.msgtype)) ++
            (zfill 6 (natToHex m.sender_id) ++
              (zfill 6 (natToHex m.receiver_id) ++
                (zfill 2 (natToHex m.group_id) ++ m.payload)))))).length =
      20 + m.payload.length := by
    simp only [List.length_append, l1, l2, l3, l4, l5, l6]
    omega
  have hHlen : (zfill 2 (natToHex ((20 + m.payload.length) / 2))).length = 2 :=
    zfill_natToHex_length (by norm_num)
      (h2 ▸ (show (20 + m.payload.length) / 2 < 256 by omega))
  simp only [encodeMessageCore, hbodylen]
  have := decode_message_shape
    (zfill 2 (natToHex ((20 + m.payload.length) / 2)))
    (zfill 2 (natToHex m.counter)) (zfill 2 (natToHex m.flag))
    (zfill 2 (natToHex (msgId m.msgtype))) (zfill 6 (natToHex m.sender_id))
    (zfill 6 (natToHex m.receiver_id)) (zfill 2 (natToHex m.group_id)) m.payload
    hHlen l1 l2 l3 l4 l5 l6
    ((20 + m.payload.length) / 2) m.counter m.flag (msgId m.msgtype)
    m.sender_id m.receiver_id m.group_id
    (pyIntHex_zfill_natToHex 2 ((20 + m.payload.length) / 2))
    (pyIntHex_zfill_natToHex 2 m.counter) (pyIntHex_zfill_natToHex 2 m.flag)
    (pyIntHex_zfill_natToHex 2 (msgId m.msgtype)) (pyIntHex_zfill_natToHex 6 m.sender_id)
    (pyIntHex_zfill_natToHex 6 m.receiver_id) (pyIntHex_zfill_natToHex 2 m.group_id)
    (by omega) m.msgtype (msgTypeOfId_msgId m.msgtype)
  exact this

/-- Witness for C1: the SetTemperature frame of the repository test
suite round-trips through decode_message. -/
theorem c1_codec_roundtrip_witness :
    decode_message (encodeMessageCore
      { msgtype := .SetTemperature, counter := 0xB9, flag := 0, sender_id := 0x123456,
        receiver_id := 0x0B3554, group_id := 0, payload := ['4', 'B'] }) =
      Except.ok { msgtype := .SetTemperature, counter := 0xB9, flag := 0,
                  sender_id := 0x123456, receiver_id := 0x0B3554, group_id := 0,
                  payload := ['4', 'B'] } :=
  c1_codec_roundtrip _ (by decide) (by decide) (by decide) (by decide) (by decide)
    (by decide) (by decide) (by decide)

/-- A message that satisfies every hypothesis of claim C1 as stated
(header fields in range, payload an even-length hex string) but whose
492-character payload makes the body 256 bytes, so the emitted length
field is three hex characters. -/
def oversizedMsg : MoritzMsg :=
  { msgtype := .WakeUp, counter := 0xB9, flag := 0, sender_id := 0x123456,
    receiver_id := 0x0B3554, group_id := 0, payload := List.replicate 492 '0' }

set_option maxRecDepth 4000 in
/-- Counterexample to C1 as stated: a message within the claimed
hypotheses whose encoded frame fails to decode, with the
length-mismatch error the claim rules out. -/
theorem c1_counterexample :
    oversizedMsg.payload.length % 2 = 0 ∧
    (∀ c ∈ oversizedMsg.payload, (hexDigitVal c).isSome) ∧
    decode_message (encodeMessageCore oversizedMsg) =
      Except.error (PyErr.moritz MorErr.lengthNotMatching) := by
  refine ⟨by decide, ?_, by decide⟩
  intro c hc
  rw [List.eq_of_mem_replicate hc]
  decide

set_option maxRecDepth 4000 in
theorem toSigned_emod4 : ∀ b0, b0 < 256 → Int.toNat (Int.emod (toSigned b0) 4) = b0 % 4 := by
  decide

set_option maxRecDepth 4000 in
theorem pyBitI_toSigned_bit2 : ∀ b0, b0 < 256 → pyBitI (toSigned b0) 2 = b0.testBit 2 := by
  decide

set_option maxRecDepth 4000 in
theorem pyBitI_toSigned_bit3 : ∀ b0, b0 < 256 → pyBitI (toSigned b0) 3 = b0.testBit 3 := by
  decide

set_option maxRecDepth 4000 in
theorem statusHiBits : ∀ b0, b0 < 256 →
    pyBitI (Int.ediv (toSigned b0) 512) 0 = decide (128 ≤ b0) ∧
    pyBitI (Int.ediv (toSigned b0) 512) 1 = decide (128 ≤ b0) ∧
    pyBitI (Int.ediv (toSigned b0) 512) 2 = decide (128 ≤ b0) := by
  decide

theorem modeOfNat_lt4 : ∀ n, n < 4 → ∃ md, modeOfNat n = some md := by
  intro n h
  interval_cases n
  · exact ⟨.auto, rfl⟩
  · exact ⟨.manual, rfl⟩
  · exact ⟨.temporary, rfl⟩
  · exact ⟨.boost, rfl⟩

/-- Claim C2 (amended): for a ThermostatState status byte b0, mode
comes from bits [1:0], dstsetting from bit 2 and langateway from bit 3,
but is_locked, rferror and battery_low are all false only for
b0 in 0x00..0x7F; because struct ">b" makes the byte signed and the
source arithmetic-shifts it right by nine, all three read TRUE for
b0 in 0x80..0xFF. -/
theorem c2_thermostat_status_bits (b0 b1 b2 : Nat) (hb : b0 < 256) :
    ∃ r, decodeStatusBytes b0 b1 b2 = Except.ok r ∧
      r.is_locked = decide (128 ≤ b0) ∧
      r.rferror = decide (128 ≤ b0) ∧
      r.battery_low = decide (128 ≤ b0) ∧
      modeOfNat (b0 % 4) = some r.mode ∧
      r.dstsetting = b0.testBit 2 ∧
      r.langateway = b0.testBit 3 := by
  have hmod : Int.toNat (Int.emod (toSigned b0) 4) = b0 % 4 := toSigned_emod4 b0 hb
  obtain ⟨md, hmd⟩ := modeOfNat_lt4 (b0 % 4) (Nat.mod_lt b0 (by omega))
  have hdec : decodeStatusBytes b0 b1 b2 = Except.ok
      { mode := md, dstsetting := pyBitI (toSigned b0) 2,
        langateway := pyBitI (toSigned b0) 3,
        is_locked := pyBitI (Int.ediv (toSigned b0) 512) 0,
        rferror := pyBitI (Int.ediv (toSigned b0) 512) 1,
        battery_low := pyBitI (Int.ediv (toSigned b0) 512) 2,
        desiredHalfDegrees := b2 &&& 0x7F, valve_position := b1 } := by
    unfold decodeStatusBytes
    rw [hmod, hmd]
  obtain ⟨e0, e1, e2⟩ := statusHiBits b0 hb
  exact ⟨_, hdec, e0, e1, e2, hmd, pyBitI_toSigned_bit2 b0 hb, pyBitI_toSigned_bit3 b0 hb⟩

/-- Witness for C2 at the status byte 0x19 of the repository test
sample (mode manual, langateway set, lock/rferror/battery clear). -/
theorem c2_thermostat_status_bits_witness :
    ∃ r, decodeStatusBytes 25 0 32 = Except.ok r ∧
      r.is_locked = decide (128 ≤ 25) ∧
      r.rferror = decide (128 ≤ 25) ∧
      r.battery_low = decide (128 ≤ 25) ∧
      modeOfNat (25 % 4) = some r.mode ∧
      r.dstsetting = Nat.testBit 25 2 ∧
      r.langateway = Nat.testBit 25 3 :=
  c2_thermostat_status_bits 25 0 32 (by decide)

/-- Counterexample to C2 as stated: for the status byte 0x80 the source
decodes is_locked, rferror and battery_low as true, not false. -/
theorem c2_counterexample :
    decodeStatusBytes 0x80 0 0 = Except.ok
      { mode := .auto, dstsetting := false, langateway := false,
        is_locked := true, rferror := true, battery_low := true,
        desiredHalfDegrees := 0, valve_position := 0 } := by
  decide

/-- Claim C3 (amended): frames whose decode fails with a MoritzError
(unknown tag, length mismatch, missing parameter) are logged, dropped,
and the engine loop continues; but that is the only exception class the
loop catches — malformed hex (ValueError) or a payload/handler failure
escapes the loop and kills the thread, as the counterexample shows. -/
theorem c3_engine_drops_moritz_errors (line : List Char) (flags : PairFlags) (budget : Int)
    (e : MorErr) (h : decode_message (line.take (line.length - 2)) = .error (.moritz e)) :
    engineStep line flags budget = StepResult.droppedMoritz e := by
  unfold engineStep engineInner
  rw [h]

/-- Witness for C3: a well-formed frame with the unregistered message
tag 0x05 is dropped with UnknownMessage and the loop survives. -/
theorem c3_engine_drops_moritz_errors_witness :
    engineStep "Z0A00000512345600000000CA".toList
      { pair_as_cube := true, pair_as_wallthermostat := false, pair_as_ShutterContact := false } 0 =
      StepResult.droppedMoritz (MorErr.unknownMessage 5) :=
  c3_engine_drops_moritz_errors _ _ _ _ (by decide)

/-- Counterexample to C3 as stated: the truncated inbound line "Z00"
(any line starting with Z reaches the engine) makes int() raise
ValueError, which the except MoritzError arm does not catch, so the
exception escapes the engine loop. -/
theorem c3_counterexample :
    engineStep "Z00".toList
      { pair_as_cube := true, pair_as_wallthermostat := false, pair_as_ShutterContact := false } 0 =
      StepResult.crashed PyErr.valueError := by
  decide

/-- Claim C10 (amended): for every Ack payload that starts with neither
01 nor 81 and whose decoding does not itself fail (which needs the
status part to be valid hex when the payload is exactly eight
characters), decoded_payload returns a map without a state entry, and
the engine's Ack handler on a cube-addressed message raises KeyError
instead of handling or dropping it.  An eight-character payload with
invalid hex instead raises ValueError at decode time. -/
theorem c10_ack_missing_state (payload : List Char)
    (h1 : pySlice payload 0 2 ≠ ['0', '1'])
    (h2 : pySlice payload 0 2 ≠ ['8', '1'])
    (h3 : payload.length = 8 → ∃ t, decode_status (payload.drop 2) = Except.ok t) :
    (∃ r, ackDecodedPayload payload = Except.ok r ∧ r.state = none) ∧
    (∀ (msg : MoritzMsg) (flags : PairFlags) (budget : Int),
      msg.msgtype = MsgType.Ack → msg.payload = payload → msg.receiver_id = CUBE_ID →
      respond_to_message msg flags budget = Except.error PyErr.keyError) := by
  have hstate : (if pySlice payload 0 2 = ['0', '1'] then some "ok"
      else if pySlice payload 0 2 = ['8', '1'] then some "invalid_command"
      else (none : Option String)) = none := by
    rw [if_neg h1, if_neg h2]
  have hack : ∃ r, ackDecodedPayload payload = Except.ok r ∧ r.state = none := by
    simp only [ackDecodedPayload]
    by_cases hlen : payload.length = 8
    · obtain ⟨t, ht⟩ := h3 hlen
      rw [if_pos hlen, ht]
      exact ⟨_, rfl, hstate⟩
    · rw [if_neg hlen]
      exact ⟨_, rfl, hstate⟩
  refine ⟨hack, ?_⟩
  intro msg flags budget hmt hpl hrecv
  obtain ⟨r, hr, hrs⟩ := hack
  obtain ⟨mt, c, f, si, ri, gi, pl⟩ := msg
  simp only at hmt hpl hrecv
  subst hmt hpl hrecv
  simp only [respond_to_message, if_pos rfl, hr, hrs, if_true]

/-- Witness for C10: the valid-hex Ack payload 02190000 (neither 01 nor
81) decodes with no state entry, and the cube-addressed handler raises
KeyError on it. -/
theorem c10_ack_missing_state_witness :
    (∃ r, ackDecodedPayload "02190000".toList = Except.ok r ∧ r.state = none) ∧
    respond_to_message
      { msgtype := .Ack, counter := 0, flag := 2, sender_id := 0x0B3554,
        receiver_id := CUBE_ID, group_id := 0, payload := "02190000".toList }
      { pair_as_cube := true, pair_as_wallthermostat := false, pair_as_ShutterContact := false }
      0 = Except.error PyErr.keyError := by
  have h := c10_ack_missing_state "02190000".toList (by decide) (by decide)
    (fun _ => ⟨{ mode := .manual, dstsetting := false, langateway := true,
                 is_locked := false, rferror := false, battery_low := false,
                 desiredHalfDegrees := 0, valve_position := 0 }, by decide⟩)
  exact ⟨h.1, h.2 _ _ _ rfl rfl rfl⟩

/-- Counterexample to C10 as stated: the eight-character Ack payload
00GGGGGG starts with neither 01 nor 81, yet decoded_payload raises
ValueError at decode time instead of returning a map. -/
theorem c10_counterexample :
    pySlice "00GGGGGG".toList 0 2 ≠ ['0', '1'] ∧
    pySlice "00GGGGGG".toList 0 2 ≠ ['8', '1'] ∧
    ackDecodedPayload "00GGGGGG".toList = Except.error PyErr.valueError := by
  decide

/-- Claim C4 (amended): a nonempty staged message is transmitted
(verbatim plus CRLF, staging cleared) exactly when the cached budget
STRICTLY exceeds ten times its character count — the source uses >,
not >= as the spec says; otherwise the budget is zeroed and the
message stays staged. -/
theorem c4_outbound_strict_budget (st : ComState) (m : List Char)
    (hm : st.pending_message = some m) (hne : m ≠ []) :
    ((m.length : Int) * 10 < st.pending_budget →
      outboundStep st = { pending_budget := if startsZs m then 0 else st.pending_budget,
                          pending_message := none,
                          written := st.written ++ [m ++ crlf] }) ∧
    (st.pending_budget ≤ (m.length : Int) * 10 →
      outboundStep st = { st with pending_budget := 0 }) := by
  constructor
  · intro hlt
    simp only [outboundStep, hm, send_command]
    rw [if_neg hne, if_pos hlt]
  · intro hge
    simp only [outboundStep, hm]
    rw [if_neg hne, if_neg (not_lt.mpr hge)]

/-- Witness for C4: with budget 100 the staged two-character message is
written with CRLF, the staging slot is cleared, and the Zs prefix
zeroes the cached budget. -/
theorem c4_outbound_strict_budget_witness :
    outboundStep { pending_budget := 100, pending_message := some ['Z', 's'], written := [] } =
      { pending_budget := 0, pending_message := none, written := [['Z', 's', '\r', '\n']] } :=
  ((c4_outbound_strict_budget
      { pending_budget := 100, pending_message := some ['Z', 's'], written := [] }
      ['Z', 's'] rfl (by decide)).1 (by decide)).trans (by decide)

/-- Counterexample to C4 as stated: with the budget exactly equal to
ten times the frame length (20 = 10 * 2), the claim says the message is
transmitted, but the source's strict > keeps it staged, writes nothing,
and zeroes the budget. -/
theorem c4_counterexample :
    (10 * (2 : Int) ≤ 20) ∧
    outboundStep { pending_budget := 20, pending_message := some ['Z', 's'], written := [] } =
      { pending_budget := 0, pending_message := some ['Z', 's'], written := [] } := by
  decide

theorem comBudgetRun_cons (b : Int) (e : ComEvent) (tr : List ComEvent) :
    comBudgetRun b (e :: tr) =
      match comBudgetStep b e with
      | some b' => comBudgetRun b' tr
      | none => none := by
  cases h : comBudgetStep b e <;> simp [comBudgetRun, List.foldlM_cons, h]

theorem comBudgetRun_stays_zero (tr : List ComEvent)
    (hno : ∀ e ∈ tr, isBudgetReportEvent e = false) :
    comBudgetRun 0 tr = some 0 := by
  induction tr with
  | nil => rfl
  | cons e es ih =>
    have he := hno e (by simp)
    have hes : ∀ x ∈ es, isBudgetReportEvent x = false := fun x hx => hno x (by simp [hx])
    rw [comBudgetRun_cons]
    cases e with
    | doSend cmd =>
      simp only [comBudgetStep, ite_self]
      exact ih hes
    | lineIn line =>
      simp only [isBudgetReportEvent] at he
      simp only [comBudgetStep, he, Bool.false_eq_true, if_false]
      exact ih hes
    | quotaShortfall =>
      simp only [comBudgetStep]
      exact ih hes

/-- Claim C8: after the transport sends any command starting with Zs,
the cached budget is zero and stays zero through any sequence of later
budget mutations that contains no processed budget-report line
("21  ..."); only such a line can make it positive again. -/
theorem c8_zs_send_zeroes_budget (b0 : Int) (cmd : List Char) (tr : List ComEvent)
    (hZs : startsZs cmd = true)
    (hno : ∀ e ∈ tr, isBudgetReportEvent e = false) :
    comBudgetRun b0 (ComEvent.doSend cmd :: tr) = some 0 := by
  rw [comBudgetRun_cons]
  simp only [comBudgetStep, hZs, if_true]
  exact comBudgetRun_stays_zero tr hno

/-- Witness for C8: a transmit followed by a version banner, an X
query, and a quota shortfall leaves the cached budget at zero. -/
theorem c8_zs_send_zeroes_budget_witness :
    comBudgetRun 31415
      [ComEvent.doSend "Zs0AB900F11234560B355400".toList,
       ComEvent.lineIn "V 1.61 CUL868".toList,
       ComEvent.doSend ['X'],
       ComEvent.quotaShortfall] = some 0 :=
  c8_zs_send_zeroes_budget 31415 _ _ (by decide) (by decide)

/-- Claim C7: every PairPong the engine enqueues in response to a
PairPing carries counter 1, this host's Cube id as sender, the ping's
sender as receiver and the ping's group id, and is enqueued only when
the cached budget is at least 2000 ms; with less budget nothing is
enqueued and no device_pair_accepted event fires. -/
theorem c7_pairpong_invariants (msg : MoritzMsg) (flags : PairFlags) (budget : Int)
    (acts : List EngineAction)
    (hmt : msg.msgtype = MsgType.PairPing)
    (hresp : respond_to_message msg flags budget = Except.ok acts) :
    (∀ resp d, EngineAction.enqueuePong resp d ∈ acts →
      resp.counter = 1 ∧ resp.sender_id = CUBE_ID ∧ resp.receiver_id = msg.sender_id ∧
      resp.group_id = msg.group_id ∧ 2000 ≤ budget) ∧
    (budget < 2000 →
      (∀ resp d, EngineAction.enqueuePong resp d ∉ acts) ∧
      (∀ resp, EngineAction.pairAccepted resp ∉ acts)) := by
  obtain ⟨mt, c, f, si, ri, gi, pl⟩ := msg
  simp only at hmt
  subst hmt
  simp only [respond_to_message] at hresp
  split_ifs at hresp with hb0 hflags hbudget hcube hbudget2 <;>
    (injection hresp with hacts; subst hacts)
  · have hb : 2000 ≤ budget := of_decide_eq_true hbudget
    refine ⟨?_, fun hlt => absurd hb (by omega)⟩
    intro resp d hmem
    simp at hmem
    obtain ⟨hr, _⟩ := hmem
    subst hr
    exact ⟨rfl, rfl, rfl, rfl, hb⟩
  · exact ⟨fun resp d hmem => by simp at hmem,
      fun _ => ⟨fun resp d hmem => by simp at hmem, fun resp hmem => by simp at hmem⟩⟩
  · exact ⟨fun resp d hmem => by simp at hmem,
      fun _ => ⟨fun resp d hmem => by simp at hmem, fun resp hmem => by simp at hmem⟩⟩
  · have hb : 2000 ≤ budget := of_decide_eq_true hbudget2
    refine ⟨?_, fun hlt => absurd hb (by omega)⟩
    intro resp d hmem
    simp at hmem
    obtain ⟨hr, _⟩ := hmem
    subst hr
    exact ⟨rfl, rfl, rfl, rfl, hb⟩
  · exact ⟨fun resp d hmem => by simp at hmem,
      fun _ => ⟨fun resp d hmem => by simp at hmem, fun resp hmem => by simp at hmem⟩⟩
  · exact ⟨fun resp d hmem => by simp at hmem,
      fun _ => ⟨fun resp d hmem => by simp at hmem, fun resp hmem => by simp at hmem⟩⟩

/-- The broadcast PairPing used by the C7 witness. -/
def pingW : MoritzMsg :=
  { msgtype := .PairPing, counter := 7, flag := 4, sender_id := 0xE016C,
    receiver_id := 0, group_id := 3, payload := [] }

/-- Witness for C7: a broadcast PairPing from 0xE016C in group 3 with
budget 2500 yields a PairPong with counter 1, Cube sender, the peer as
receiver and group 3. -/
theorem c7_pairpong_invariants_witness :
    (mkPairPong pingW).counter = 1 ∧ (mkPairPong pingW).sender_id = CUBE_ID ∧
    (mkPairPong pingW).receiver_id = pingW.sender_id ∧
    (mkPairPong pingW).group_id = pingW.group_id ∧ (2000 : Int) ≤ 2500 :=
  (c7_pairpong_invariants pingW
    { pair_as_cube := true, pair_as_wallthermostat := false, pair_as_ShutterContact := false }
    2500
    [EngineAction.pairRequest, EngineAction.enqueuePong (mkPairPong pingW) "Cube",
     EngineAction.pairAccepted (mkPairPong pingW)]
    rfl (by decide)).1 (mkPairPong pingW) "Cube" (by decide)

theorem hexBytes_field {b : Nat} (hb : b < 256) (rest : List Char) :
    hexBytes (zfill 2 (natToHex b) ++ rest) =
      match hexBytes rest with
      | .ok bs => .ok (b :: bs)
      | .error e => .error e := by
  have hlen : (zfill 2 (natToHex b)).length = 2 :=
    zfill_natToHex_length (by norm_num) (show b < 16 ^ 2 by norm_num; omega)
  have hparse : pyIntHex (zfill 2 (natToHex b)) = some b := pyIntHex_zfill_natToHex 2 b
  obtain ⟨c1, c2, hc⟩ := List.length_eq_two.mp hlen
  rw [hc] at hparse
  rw [hc]
  simp only [pyIntHex, parseHexAux] at hparse
  cases h1 : hexDigitVal c1 with
  | none => rw [h1] at hparse; simp at hparse
  | some d1 =>
    cases h2 : hexDigitVal c2 with
    | none => rw [h1, h2] at hparse; simp at hparse
    | some d2 =>
      rw [h1, h2] at hparse
      simp only [Option.some.injEq] at hparse
      show hexBytes (c1 :: c2 :: rest) = _
      simp only [hexBytes, h1, h2]
      rw [show 16 * d1 + d2 = b by omega]

theorem tiEncodePayload_dt (y mo d h mi s : Nat) :
    tiEncodePayload (TIPayloadIn.dt y mo d h mi s) =
      Except.ok (zfill 2 (natToHex (y - 2000)) ++ zfill 2 (natToHex d) ++
        zfill 2 (natToHex h) ++ zfill 2 (natToHex (mi ||| ((mo &&& 0x0C) <<< 4))) ++
        zfill 2 (natToHex (s ||| ((mo &&& 0x03) <<< 6)))) := rfl

theorem tiEncodeMessage_eq (m : MoritzMsg) (p : TIPayloadIn) (pl : List Char)
    (h : tiEncodePayload p = Except.ok pl) :
    tiEncodeMessage m p = Except.ok
      (encodeMessageCore { m with payload := pl, flag := tiEncodeFlag pl },
       { m with payload := pl, flag := tiEncodeFlag pl }) := by
  simp only [tiEncodeMessage, h]

/-- Claim C6 (amended): encoding TimeInformation with payload None
yields the request form (empty payload, flag 0x0A); encoding with the
empty map {} — the default of encode_message — does NOT yield the
request form but raises AttributeError, because encode_payload treats
any non-None argument as a datetime; encoding with a datetime yields
the five-byte packing with the month split across bytes 3 and 4, and
flag 0x04. -/
theorem c6_timeinformation_encode (m : MoritzMsg) :
    (∃ w m2, tiEncodeMessage m TIPayloadIn.nonePayload = Except.ok (w, m2) ∧
      m2.payload = [] ∧ m2.flag = 0x0A) ∧
    tiEncodeMessage m TIPayloadIn.emptyDict = Except.error PyErr.attributeError ∧
    (∀ y mo d h mi s, y - 2000 ≤ 255 → d ≤ 255 → h ≤ 255 →
      mi ||| ((mo &&& 0x0C) <<< 4) ≤ 255 → s ||| ((mo &&& 0x03) <<< 6) ≤ 255 →
      ∃ pl, tiEncodePayload (TIPayloadIn.dt y mo d h mi s) = Except.ok pl ∧
        tiEncodeMessage m (TIPayloadIn.dt y mo d h mi s) =
          Except.ok (encodeMessageCore { m with payload := pl, flag := 0x04 },
            { m with payload := pl, flag := 0x04 }) ∧
        hexBytes pl = Except.ok
          [y - 2000, d, h, mi ||| ((mo &&& 0x0C) <<< 4), s ||| ((mo &&& 0x03) <<< 6)]) := by
  refine ⟨⟨_, _, tiEncodeMessage_eq m TIPayloadIn.nonePayload [] rfl, rfl, rfl⟩, rfl, ?_⟩
  intro y mo d h mi s hy hd hh hmi hs
  have hne : zfill 2 (natToHex (y - 2000)) ≠ [] := zfill_ne_nil (natToHex_ne_nil _)
  have hPne : zfill 2 (natToHex (y - 2000)) ++ zfill 2 (natToHex d) ++
      zfill 2 (natToHex h) ++ zfill 2 (natToHex (mi ||| ((mo &&& 0x0C) <<< 4))) ++
      zfill 2 (natToHex (s ||| ((mo &&& 0x03) <<< 6))) ≠ [] := by
    intro hcontra
    simp only [List.append_eq_nil] at hcontra
    exact hne hcontra.1.1.1.1
  have hflag : tiEncodeFlag (zfill 2 (natToHex (y - 2000)) ++ zfill 2 (natToHex d) ++
      zfill 2 (natToHex h) ++ zfill 2 (natToHex (mi ||| ((mo &&& 0x0C) <<< 4))) ++
      zfill 2 (natToHex (s ||| ((mo &&& 0x03) <<< 6)))) = 0x04 := by
    unfold tiEncodeFlag
    exact if_neg hPne
  have hbytes : hexBytes (zfill 2 (natToHex (y - 2000)) ++ zfill 2 (natToHex d) ++
      zfill 2 (natToHex h) ++ zfill 2 (natToHex (mi ||| ((mo &&& 0x0C) <<< 4))) ++
      zfill 2 (natToHex (s ||| ((mo &&& 0x03) <<< 6)))) = Except.ok
      [y - 2000, d, h, mi ||| ((mo &&& 0x0C) <<< 4), s ||| ((mo &&& 0x03) <<< 6)] := by
    simp only [List.append_assoc]
    rw [hexBytes_field (by omega) _, hexBytes_field (by omega) _, hexBytes_field (by omega) _,
      hexBytes_field (by omega) _]
    rw [show zfill 2 (natToHex (s ||| ((mo &&& 0x03) <<< 6))) =
      zfill 2 (natToHex (s ||| ((mo &&& 0x03) <<< 6))) ++ [] by simp]
    rw [hexBytes_field (by omega) []]
    rfl
  refine ⟨zfill 2 (natToHex (y - 2000)) ++ zfill 2 (natToHex d) ++
      zfill 2 (natToHex h) ++ zfill 2 (natToHex (mi ||| ((mo &&& 0x0C) <<< 4))) ++
      zfill 2 (natToHex (s ||| ((mo &&& 0x03) <<< 6))), tiEncodePayload_dt y mo d h mi s, ?_, hbytes⟩
  rw [tiEncodeMessage_eq m (TIPayloadIn.dt y mo d h mi s)
    (zfill 2 (natToHex (y - 2000)) ++ zfill 2 (natToHex d) ++
      zfill 2 (natToHex h) ++ zfill 2 (natToHex (mi ||| ((mo &&& 0x0C) <<< 4))) ++
      zfill 2 (natToHex (s ||| ((mo &&& 0x03) <<< 6))))
    (tiEncodePayload_dt y mo d h mi s), hflag]

/-- The TimeInformation message of the repository test suite, used by
the C6 witness. -/
def tiMsgW : MoritzMsg :=
  { msgtype := .TimeInformation, counter := 2, flag := 0, sender_id := 0x123456,
    receiver_id := 0xE016C, group_id := 0, payload := [] }

/-- Witness for C6: datetime(2014, 12, 1, 2, 33, 23) packs to bytes
0E 01 02 E1 17 with flag 0x04; None gives the request form; the empty
dict raises AttributeError. -/
theorem c6_timeinformation_encode_witness :
    (∃ w m2, tiEncodeMessage tiMsgW TIPayloadIn.nonePayload = Except.ok (w, m2) ∧
      m2.payload = [] ∧ m2.flag = 0x0A) ∧
    tiEncodeMessage tiMsgW TIPayloadIn.emptyDict = Except.error PyErr.attributeError ∧
    (∃ pl, tiEncodePayload (TIPayloadIn.dt 2014 12 1 2 33 23) = Except.ok pl ∧
      tiEncodeMessage tiMsgW (TIPayloadIn.dt 2014 12 1 2 33 23) =
        Except.ok (encodeMessageCore { tiMsgW with payload := pl, flag := 0x04 },
          { tiMsgW with payload := pl, flag := 0x04 }) ∧
      hexBytes pl = Except.ok [14, 1, 2, 225, 23]) := by
  have h := c6_timeinformation_encode tiMsgW
  refine ⟨h.1, h.2.1, ?_⟩
  have h3 := h.2.2 2014 12 1 2 33 23 (by decide) (by decide) (by decide) (by decide) (by decide)
  rw [show (2014 - 2000 : Nat) = 14 from by norm_num,
      show (33 ||| (12 &&& 0x0C) <<< 4 : Nat) = 225 from by decide,
      show (23 ||| (12 &&& 0x03) <<< 6 : Nat) = 23 from by decide] at h3
  exact h3

/-- Claim C9: encode_message is not pure with respect to the message
object — for the variants with an encode_payload or encode_flag rule
(SetTemperature, TimeInformation with both rules, PairPong with only
encode_payload), after a successful call the returned object holds the
newly encoded payload and the recomputed flag (respectively the
untouched flag for PairPong), and the result is independent of
whatever payload and flag the object held before the call. -/
theorem c9_encode_message_mutates (mm : MoritzMsg) :
    (∀ (p : STPayloadIn) (pl : List Char), stEncodePayload p = Except.ok pl →
      stEncodeMessage mm p = Except.ok
        (encodeMessageCore { mm with payload := pl, flag := stEncodeFlag mm },
         { mm with payload := pl, flag := stEncodeFlag mm }) ∧
      ∀ (q : List Char) (f : Nat),
        stEncodeMessage { mm with payload := q, flag := f } p = stEncodeMessage mm p) ∧
    (∀ (p : TIPayloadIn) (pl : List Char), tiEncodePayload p = Except.ok pl →
      tiEncodeMessage mm p = Except.ok
        (encodeMessageCore { mm with payload := pl, flag := tiEncodeFlag pl },
         { mm with payload := pl, flag := tiEncodeFlag pl }) ∧
      ∀ (q : List Char) (f : Nat),
        tiEncodeMessage { mm with payload := q, flag := f } p = tiEncodeMessage mm p) ∧
    (∀ (p : Option String) (pl : List Char), ppEncodePayload p = Except.ok pl →
      ppEncodeMessage mm p = Except.ok
        (encodeMessageCore { mm with payload := pl }, { mm with payload := pl }) ∧
      ∀ (q : List Char) (f : Nat),
        ppEncodeMessage { mm with payload := q, flag := f } p =
          Except.ok (encodeMessageCore { mm with payload := pl, flag := f },
            { mm with payload := pl, flag := f })) := by
  refine ⟨?_, ?_, ?_⟩
  · intro p pl h
    constructor
    · simp only [stEncodeMessage, h]
      rfl
    · intro q f
      simp only [stEncodeMessage, h]
      rfl
  · intro p pl h
    constructor
    · simp only [tiEncodeMessage, h]
    · intro q f
      simp only [tiEncodeMessage, h]
  · intro p pl h
    constructor
    · simp only [ppEncodeMessage, h]
    · intro q f
      simp only [ppEncodeMessage, h]

/-- The PairPong message with stale payload and flag fields used by the
C9 witness. -/
def pongW : MoritzMsg :=
  { msgtype := .PairPong, counter := 1, flag := 7, sender_id := 0x123456,
    receiver_id := 0xE016C, group_id := 0, payload := ['F', 'F'] }

/-- Witness for C9: encoding a PairPong with devicetype Cube replaces
the stale payload FF with 00 in the returned object. -/
theorem c9_encode_message_mutates_witness :
    ppEncodeMessage pongW (some "Cube") = Except.ok
      (encodeMessageCore { pongW with payload := ['0', '0'] },
       { pongW with payload := ['0', '0'] }) :=
  (((c9_encode_message_mutates pongW).2.2 (some "Cube") (zfill 2 (natToDec 0)) rfl).1).trans
    (by decide)

theorem modeOfNat_modeCode : ∀ md, modeOfNat (modeCode md) = some md := by
  intro md
  cases md <;> rfl

set_option maxRecDepth 4000 in
theorem orDecompose : ∀ mc, mc < 4 → ∀ k, k < 64 →
    (mc <<< 6 ||| k) < 256 ∧ (mc <<< 6 ||| k) >>> 6 = mc ∧ (mc <<< 6 ||| k) &&& 63 = k := by
  decide

theorem pyRound_of_nonneg (q : ℚ) (h : 0 ≤ q) : pyRound q = Int.floor (q + 1 / 2) := by
  unfold pyRound
  rw [if_neg (not_lt.mpr h)]

/-- Decoding the two-character SetTemperature payload built from a mode
code and a wire temperature value in 9..61. -/
theorem st_roundtrip_core (md : Mode) (k : ℤ) (h9 : 9 ≤ k) (h61 : k ≤ 61) :
    stDecodedPayload (zfill 2 (natToHex (modeCode md <<< 6 ||| k.toNat))) =
      Except.ok { desired_temperature := (k : ℚ) / 2, mode := md } := by
  have hmc : modeCode md < 4 := by cases md <;> decide
  have hk64 : k.toNat < 64 := by omega
  obtain ⟨hlt, hshift, hand⟩ := orDecompose (modeCode md) hmc k.toNat hk64
  have hlen : (zfill 2 (natToHex (modeCode md <<< 6 ||| k.toNat))).length = 2 :=
    zfill_natToHex_length (by norm_num) (show _ < 16 ^ 2 by norm_num; omega)
  have hbytes : hexBytes (zfill 2 (natToHex (modeCode md <<< 6 ||| k.toNat))) =
      Except.ok [modeCode md <<< 6 ||| k.toNat] := by
    rw [show zfill 2 (natToHex (modeCode md <<< 6 ||| k.toNat)) =
      zfill 2 (natToHex (modeCode md <<< 6 ||| k.toNat)) ++ [] by simp]
    rw [hexBytes_field hlt []]
    rfl
  have hslice : pySlice (zfill 2 (natToHex (modeCode md <<< 6 ||| k.toNat))) 0 4 =
      zfill 2 (natToHex (modeCode md <<< 6 ||| k.toNat)) := by
    simp only [pySlice, List.drop_zero]
    exact List.take_of_length_le (by omega)
  unfold stDecodedPayload
  rw [hslice, hbytes]
  show (match modeOfNat ((modeCode md <<< 6 ||| k.toNat) >>> 6) with
      | none => Except.error PyErr.keyError
      | some md2 =>
        Except.ok { desired_temperature := (((modeCode md <<< 6 ||| k.toNat) &&& 0x3F : Nat) : ℚ) / 2,
                    mode := md2 } : Except PyErr STDecoded) = _
  rw [hshift, modeOfNat_modeCode md, hand]
  have hcast : ((k.toNat : Nat) : ℚ) = (k : ℚ) := by
    rw [show ((k.toNat : Nat) : ℚ) = ((k.toNat : ℤ) : ℚ) by push_cast; ring]
    rw [Int.toNat_of_nonneg (by omega)]
  rw [hcast]

/-- The clamp of the specification: t limited to [4.5, 30.5]. -/
def clampSpec (t : ℚ) : ℚ := max (9 / 2) (min (61 / 2) t)

theorem stEncodePayload_some (t : ℚ) (md : Mode) :
    stEncodePayload { desired_temperature := some t, mode := some md } =
      Except.ok (zfill 2 (natToHex (modeCode md <<< 6 |||
        (if t > 61 / 2 then (61 : ℤ) else if t < 9 / 2 then 9 else pyRound (t * 2)).toNat))) :=
  rfl

/-- Claim C5: encoding SetTemperature with a desired temperature t and
a mode and decoding the payload yields the mode back and a desired
temperature equal to round(clamp(t, 4.5, 30.5) * 2) / 2 (Python 2
round, half away from zero), which lies on the half-degree grid
{4.5, ..., 30.5}; encoding with either key missing fails with
MissingPayloadParameter and produces nothing. -/
theorem c5_settemperature_roundtrip :
    (∀ (t : ℚ) (md : Mode), ∃ pl d,
      stEncodePayload { desired_temperature := some t, mode := some md } = Except.ok pl ∧
      stDecodedPayload pl = Except.ok d ∧
      d.desired_temperature = (pyRound (clampSpec t * 2) : ℚ) / 2 ∧
      d.mode = md ∧
      (∃ k : ℤ, 9 ≤ k ∧ k ≤ 61 ∧ d.desired_temperature = (k : ℚ) / 2)) ∧
    (∀ p : STPayloadIn, p.desired_temperature = none ∨ p.mode = none →
      stEncodePayload p = Except.error (PyErr.moritz MorErr.missingPayloadParameter)) := by
  constructor
  · intro t md
    by_cases h1 : t > 61 / 2
    · have hk : (if t > 61 / 2 then (61 : ℤ) else if t < 9 / 2 then 9 else pyRound (t * 2)) = 61 :=
        if_pos h1
      have hcl : clampSpec t = 61 / 2 := by
        unfold clampSpec
        rw [min_eq_left (le_of_lt h1), max_eq_right (by norm_num : (9 / 2 : ℚ) ≤ 61 / 2)]
      have hpr : pyRound (clampSpec t * 2) = 61 := by
        rw [hcl, show ((61 : ℚ) / 2) * 2 = 61 by ring,
          pyRound_of_nonneg 61 (by norm_num)]
        exact Int.floor_eq_iff.mpr (by constructor <;> norm_num)
      refine ⟨_, { desired_temperature := ((61 : ℤ) : ℚ) / 2, mode := md },
        stEncodePayload_some t md, ?_, ?_, ?_, ?_⟩
      · rw [hk]
        exact st_roundtrip_core md 61 (by norm_num) (by norm_num)
      · rw [hpr]
      · rfl
      · exact ⟨61, by norm_num, by norm_num, rfl⟩
    · by_cases h2 : t < 9 / 2
      · have hk : (if t > 61 / 2 then (61 : ℤ) else if t < 9 / 2 then 9 else pyRound (t * 2)) = 9 := by
          rw [if_neg h1, if_pos h2]
        have hcl : clampSpec t = 9 / 2 := by
          unfold clampSpec
          rw [max_eq_left]
          exact le_trans (min_le_right _ _) (le_of_lt h2)
        have hpr : pyRound (clampSpec t * 2) = 9 := by
          rw [hcl, show ((9 : ℚ) / 2) * 2 = 9 by ring, pyRound_of_nonneg 9 (by norm_num)]
          exact Int.floor_eq_iff.mpr (by constructor <;> norm_num)
        refine ⟨_, { desired_temperature := ((9 : ℤ) : ℚ) / 2, mode := md },
          stEncodePayload_some t md, ?_, ?_, ?_, ?_⟩
        · rw [hk]
          exact st_roundtrip_core md 9 (by norm_num) (by norm_num)
        · rw [hpr]
        · rfl
        · exact ⟨9, by norm_num, by norm_num, rfl⟩
      · have hle : t ≤ 61 / 2 := not_lt.mp h1
        have hge : 9 / 2 ≤ t := not_lt.mp h2
        have hk : (if t > 61 / 2 then (61 : ℤ) else if t < 9 / 2 then 9 else pyRound (t * 2)) =
            pyRound (t * 2) := by
          rw [if_neg h1, if_neg (not_lt.mpr hge)]
        have hcl : clampSpec t = t := by
          unfold clampSpec
          rw [min_eq_right hle, max_eq_right hge]
        have hround : pyRound (t * 2) = Int.floor (t * 2 + 1 / 2) :=
          pyRound_of_nonneg (t * 2) (by linarith)
        have h9 : 9 ≤ pyRound (t * 2) := by
          rw [hround]
          exact Int.le_floor.mpr (by push_cast; linarith)
        have h61 : pyRound (t * 2) ≤ 61 := by
          rw [hround]
          have : Int.floor (t * 2 + 1 / 2) < 62 := Int.floor_lt.mpr (by push_cast; linarith)
          omega
        refine ⟨_, { desired_temperature := ((pyRound (t * 2) : ℤ) : ℚ) / 2, mode := md },
          stEncodePayload_some t md, ?_, ?_, ?_, ?_⟩
        · rw [hk]
          exact st_roundtrip_core md (pyRound (t * 2)) h9 h61
        · rw [hcl]
        · rfl
        · exact ⟨pyRound (t * 2), h9, h61, rfl⟩
  · intro p hp
    obtain ⟨pd, pm⟩ := p
    simp only at hp
    rcases hp with h | h
    · subst h
      rfl
    · subst h
      cases pd <;> rfl

/-- Witness for C5: a payload map missing desired_temperature fails
with MissingPayloadParameter. -/
theorem c5_settemperature_roundtrip_witness :
    stEncodePayload { desired_temperature := none, mode := some Mode.manual } =
      Except.error (PyErr.moritz MorErr.missingPayloadParameter) :=
  c5_settemperature_roundtrip.2
    { desired_temperature := none, mode := some Mode.manual } (Or.inl rfl)

/-- Counterexample to C6 as stated: encoding TimeInformation with the
empty map (the default of encode_message) does not produce the
empty-payload request form; it raises AttributeError. -/
theorem c6_counterexample :
    tiEncodeMessage
      { msgtype := .TimeInformation, counter := 0, flag := 0, sender_id := 0x123456,
        receiver_id := 0xE016C, group_id := 0, payload := [] }
      TIPayloadIn.emptyDict = Except.error PyErr.attributeError := by
  decide
